import Mathlib

/-!
Verification development for a JSON-file-backed command-line task tracker
(source: src/main.py).  The Python module is shallowly embedded: the task
record becomes a Lean structure, the JSON file contents become an explicit
value of an inductive type threaded through every operation, and each
Python function becomes a total Lean function on that state.  Python `int`
is modelled as `Int`, Python strings as `String`, and exceptions as
`Option`.  Filesystem faults (permission errors and the like) are outside
the model: every file operation succeeds, matching the single-user local
assumption of the program.
-/

namespace TaskTracker

/-- The `Task` dataclass of `main.py`: fields in declaration order
`id, title, created_at, due_date, priority, completed`, with the same
defaults (`due_date=None`, `priority=3`, `completed=False`) applied in
`jsonToTask` below. -/
structure Task where
  id : String
  title : String
  created_at : String
  due_date : Option String
  priority : Int
  completed : Bool
deriving Repr, DecidableEq

/-- JSON values as produced by `json.loads` / consumed by `json.dumps`.
Only the constructors the task file can contain are modelled; numbers are
integers, since every number the program writes is a Python `int`. -/
inductive Json where
  | null
  | bool (b : Bool)
  | int (n : Int)
  | str (s : String)
  | arr (xs : List Json)
  | obj (kvs : List (String × Json))

/-- `asdict(t)` followed by serialization: the JSON object written for one
task, keys in dataclass field order. -/
def taskToJson (t : Task) : Json :=
  .obj [("id", .str t.id), ("title", .str t.title),
        ("created_at", .str t.created_at),
        ("due_date", match t.due_date with | none => .null | some d => .str d),
        ("priority", .int t.priority),
        ("completed", .bool t.completed)]

/-- Key lookup in a JSON object.  Objects model Python dicts, whose keys
are unique, so first-occurrence lookup is faithful. -/
def getKey (kvs : List (String × Json)) (k : String) : Option Json :=
  (kvs.find? (fun kv => kv.1 = k)).map (fun kv => kv.2)

/-- The allowed keyword names of `Task(**item)`: the dataclass fields. -/
def taskFields : List String :=
  ["id", "title", "created_at", "due_date", "priority", "completed"]

/-- `Task(**item)`: succeeds only when `item` is an object whose keys all
name dataclass fields and which supplies the three fields without
defaults; missing optional fields take the dataclass defaults.  Field
values are required to have the types the dataclass annotates (the Python
runtime would accept ill-typed values silently; the model folds them into
the parse-failure case handled by the caller). -/
def jsonToTask : Json → Option Task
  | .obj kvs =>
    if kvs.all (fun kv => taskFields.contains kv.1) then
      match getKey kvs "id", getKey kvs "title", getKey kvs "created_at" with
      | some (.str i), some (.str ti), some (.str ca) =>
        let dd : Option (Option String) :=
          match getKey kvs "due_date" with
          | none => some none
          | some .null => some none
          | some (.str d) => some (some d)
          | some _ => none
        let pr : Option Int :=
          match getKey kvs "priority" with
          | none => some 3
          | some (.int n) => some n
          | some _ => none
        let co : Option Bool :=
          match getKey kvs "completed" with
          | none => some false
          | some (.bool b) => some b
          | some _ => none
        match dd, pr, co with
        | some d, some p, some c => some ⟨i, ti, ca, d, p, c⟩
        | _, _, _ => none
      | _, _, _ => none
    else none
  | _ => none

/-- Contents of a file on disk: either text that `json.loads` rejects, or
a parsed JSON value.  (String-level serialization is abstracted: the
program only ever compares file contents through `json.loads`.) -/
inductive Content where
  | malformed
  | json (j : Json)

/-- The serialized form `save_tasks` writes: a JSON array of task
objects. -/
def encodeTasks (ts : List Task) : Content :=
  .json (.arr (ts.map taskToJson))

/-- `[Task(**item) for item in data]`: left to right, the first failing
element fails the whole comprehension. -/
def decodeTaskList : List Json → Option (List Task)
  | [] => some []
  | j :: js =>
    match jsonToTask j, decodeTaskList js with
    | some t, some ts => some (t :: ts)
    | _, _ => none

/-- `json.loads` plus `[Task(**item) for item in data]`: fails (raises,
in Python) unless the content is a JSON array each of whose elements
yields a task. -/
def decodeTasks : Content → Option (List Task)
  | .malformed => none
  | .json (.arr items) => decodeTaskList items
  | .json _ => none

/-- The filesystem state the program touches: the tasks file
(`tasks.json`) and its backup sibling (`tasks.bak.json`), each either
absent or holding some content. -/
structure FS where
  tasksFile : Option Content
  backupFile : Option Content

/-- `load_tasks()`: absent file yields an empty list; content that fails
to decode is renamed to the backup path (overwriting any previous backup,
as `os.rename` does) and an empty list is returned; otherwise the decoded
tasks are returned with the filesystem untouched.  Total: no exception
escapes, mirroring the `try/except Exception` wrapper. -/
def load_tasks (fs : FS) : List Task × FS :=
  match fs.tasksFile with
  | none => ([], fs)
  | some c =>
    match decodeTasks c with
    | some ts => (ts, fs)
    | none => ([], ⟨none, some c⟩)

/-- `save_tasks(tasks)`: overwrites the tasks file with the serialized
collection. -/
def save_tasks (ts : List Task) (fs : FS) : FS :=
  { fs with tasksFile := some (encodeTasks ts) }

/-- Python `t.id.startswith(task_id)`: the candidate is a prefix of the
code-point sequence of the id.  (A Lean `String` is its list of
characters, so `List.isPrefixOf` on the underlying data is exactly this
relation.) -/
def pyStartsWith (s q : String) : Bool := q.data.isPrefixOf s.data

/-- Python `str.strip()` whitespace test, ASCII fragment (space, tab,
newline, carriage return, vertical tab, form feed). -/
def isPySpace (c : Char) : Bool :=
  c = ' ' ∨ c = '\t' ∨ c = '\n' ∨ c = '\r' ∨ c = '\x0b' ∨ c = '\x0c'

/-- Python `str.strip()`: drop leading and trailing whitespace. -/
def pyStrip (s : String) : String :=
  ⟨((s.toList.dropWhile isPySpace).reverse.dropWhile isPySpace).reverse⟩

/-- `add_task(title, due_date, priority)`.  The fresh `uuid4` id and the
`_now_str()` timestamp are nondeterministic inputs of the real program
and are passed in as parameters `newId` and `now`. -/
def add_task (newId now : String) (title : String) (due : Option String)
    (pri : Int) (fs : FS) : Task × FS :=
  let p := load_tasks fs
  let t : Task := ⟨newId, pyStrip title, now, due, pri, false⟩
  (t, save_tasks (p.1 ++ [t]) p.2)

/-- `list_tasks(show_completed)`: all tasks, or only those whose
`completed` flag matches the filter. -/
def list_tasks (show_completed : Option Bool) (fs : FS) : List Task × FS :=
  let p := load_tasks fs
  match show_completed with
  | none => p
  | some b => (p.1.filter (fun t => t.completed = b), p.2)

/-- The loop body of `complete_task`: mark the first task whose id starts
with the given string, report whether one was found. -/
def markFirst (q : String) : List Task → List Task × Bool
  | [] => ([], false)
  | t :: ts =>
    if pyStartsWith t.id q then ({ t with completed := true } :: ts, true)
    else
      let r := markFirst q ts
      (t :: r.1, r.2)

/-- `complete_task(task_id)`: sets `completed=True` on the first task (in
stored order) whose id starts with `task_id`; saves only when a match was
found. -/
def complete_task (q : String) (fs : FS) : Bool × FS :=
  let p := load_tasks fs
  let r := markFirst q p.1
  if r.2 then (true, save_tasks r.1 p.2) else (false, p.2)

/-- `delete_task(task_id)`: removes every task whose id starts with
`task_id`; saves and reports `True` exactly when the list shrank. -/
def delete_task (q : String) (fs : FS) : Bool × FS :=
  let p := load_tasks fs
  let new := p.1.filter (fun t => ! pyStartsWith t.id q)
  if new.length ≠ p.1.length then (true, save_tasks new p.2) else (false, p.2)

/-! ### Date parsing (`parse_due_date`) -/

/-- Numeric value of a decimal digit character. -/
def digitVal (c : Char) : Nat := c.toNat - 48

/-- Value of a decimal digit string, most significant digit first. -/
def digitsToNat (cs : List Char) : Nat :=
  cs.foldl (fun n c => 10 * n + digitVal c) 0

/-- Take up to two leading decimal digits of a character list. -/
def takeDigits2 : List Char → List Char × List Char
  | [] => ([], [])
  | [a] => if a.isDigit then ([a], []) else ([], [a])
  | a :: b :: rest =>
    if a.isDigit then
      if b.isDigit then ([a, b], rest) else ([a], b :: rest)
    else ([], a :: b :: rest)

/-- Gregorian leap-year rule, as used by Python `datetime`. -/
def isLeap (y : Nat) : Bool := decide ((y % 4 = 0 ∧ y % 100 ≠ 0) ∨ y % 400 = 0)

/-- Days in a month of the proleptic Gregorian calendar. -/
def daysInMonth (y m : Nat) : Nat :=
  if m = 2 then (if isLeap y then 29 else 28)
  else if m = 4 ∨ m = 6 ∨ m = 9 ∨ m = 11 then 30
  else 31

/-- `datetime.strptime(s, "%Y-%m-%d")` together with the `datetime`
constructor checks.  CPython compiles the format to the regular
expression `(\d\d\d\d)-(1[0-2]|0[1-9]|[1-9])-(3[01]|[12]\d|0[1-9]|[1-9])`
matched against the whole string, then calls the constructor, which
requires `1 <= year` and the day to fit the month.  The regex is
implemented here as: exactly four year digits, a dash, one or two month
digits valued 1..12, a dash, one or two day digits valued 1..31, end of
input; taking digits greedily is equivalent to the alternation, because a
rejected two-digit group forces the single-digit alternative to be
followed by a digit where the format demands a dash or the end. -/
def strptimeYMD (cs : List Char) : Option (Nat × Nat × Nat) :=
  match cs with
  | y1 :: y2 :: y3 :: y4 :: c1 :: rest =>
    if c1 = '-' ∧ y1.isDigit ∧ y2.isDigit ∧ y3.isDigit ∧ y4.isDigit then
      if (takeDigits2 rest).1 ≠ [] ∧ (takeDigits2 rest).2.head? = some '-' then
        if (takeDigits2 (takeDigits2 rest).2.tail).1 ≠ []
            ∧ (takeDigits2 (takeDigits2 rest).2.tail).2 = [] then
          if 1 ≤ digitsToNat (takeDigits2 rest).1
              ∧ digitsToNat (takeDigits2 rest).1 ≤ 12
              ∧ 1 ≤ digitsToNat (takeDigits2 (takeDigits2 rest).2.tail).1
              ∧ digitsToNat (takeDigits2 (takeDigits2 rest).2.tail).1 ≤ 31 then
            if 1 ≤ digitsToNat [y1, y2, y3, y4]
                ∧ digitsToNat (takeDigits2 (takeDigits2 rest).2.tail).1
                  ≤ daysInMonth (digitsToNat [y1, y2, y3, y4])
                      (digitsToNat (takeDigits2 rest).1) then
              some (digitsToNat [y1, y2, y3, y4],
                digitsToNat (takeDigits2 rest).1,
                digitsToNat (takeDigits2 (takeDigits2 rest).2.tail).1)
            else none
          else none
        else none
      else none
    else none
  | _ => none

/-- Zero padding to two digits, as `%m` and `%d` print. -/
def pad2 (n : Nat) : String := if n < 10 then "0" ++ toString n else toString n

/-- `dt.strftime("%Y-%m-%d")`.  On the glibc platforms the program
targets, `%Y` prints the year unpadded; `%m` and `%d` are zero-padded to
two digits. -/
def fmtYMD (y m d : Nat) : String :=
  toString y ++ "-" ++ pad2 m ++ "-" ++ pad2 d

/-- `parse_due_date(s)`: strip; empty input is absent; otherwise parse
with `%Y-%m-%d` and re-format, any `ValueError` becoming absent. -/
def parse_due_date (s : String) : Option String :=
  let t := pyStrip s
  if t = "" then none
  else
    match strptimeYMD t.data with
    | some (y, m, d) => some (fmtYMD y m d)
    | none => none

/-! ### Menu integer input (`input_int`) -/

/-- Python `int(raw)` on an already-stripped string: an optional sign
followed by decimal digits.  (Underscore digit grouping and non-ASCII
digits are outside the model.) -/
def pyParseInt (s : String) : Option Int :=
  match s.data with
  | '-' :: cs =>
    if cs ≠ [] ∧ cs.all Char.isDigit then some (-(digitsToNat cs : Int)) else none
  | '+' :: cs =>
    if cs ≠ [] ∧ cs.all Char.isDigit then some ((digitsToNat cs : Int)) else none
  | cs =>
    if cs ≠ [] ∧ cs.all Char.isDigit then some ((digitsToNat cs : Int)) else none

/-- `input_int(prompt, default)`: empty input falls back to the default;
numeric input is clamped by `min(5, max(1, val))`; non-numeric input
falls back to the default. -/
def input_int (raw : String) (default : Int) : Int :=
  let r := pyStrip raw
  if r = "" then default
  else
    match pyParseInt r with
    | some v => min 5 (max 1 v)
    | none => default

/-! ### Display sorting (`print_tasks`) -/

/-- The due-date component of the sort key: `t.due_date or "9999-12-31"`.
Python `or` substitutes the sentinel both for `None` and for an empty
string (falsy). -/
def dueKey (t : Task) : String :=
  match t.due_date with
  | none => "9999-12-31"
  | some d => if d = "" then "9999-12-31" else d

/-- `sort_key(t)`: the tuple `(t.completed, due, t.priority,
t.created_at)`. -/
def sort_key (t : Task) : Bool × String × Int × String :=
  (t.completed, dueKey t, t.priority, t.created_at)

/-- Python tuple ordering on the sort key: lexicographic, booleans with
`False < True`, strings compared lexicographically by code point (the
order of their character lists). -/
def pyKeyLE (a b : Bool × String × Int × String) : Prop :=
  a.1 < b.1 ∨ a.1 = b.1 ∧
    (a.2.1.data < b.2.1.data ∨ a.2.1 = b.2.1 ∧
      (a.2.2.1 < b.2.2.1 ∨ a.2.2.1 = b.2.2.1 ∧ a.2.2.2.data ≤ b.2.2.2.data))

instance (a b : Bool × String × Int × String) : Decidable (pyKeyLE a b) := by
  unfold pyKeyLE; infer_instance

/-- The comparison `sorted` sorts by. -/
def keyLe (t u : Task) : Bool := decide (pyKeyLE (sort_key t) (sort_key u))

/-- The sorting step of `print_tasks`: `sorted(tasks, key=sort_key)`,
a stable sort by the composite key, modelled by `List.mergeSort`. -/
def sortForDisplay (ts : List Task) : List Task := ts.mergeSort keyLe

/-- The sort key compared through nested lexicographic orders; used to
transfer transitivity and totality from the order instances. -/
def keyEmbed (a : Bool × String × Int × String) :
    Lex (Bool × Lex (List Char × Lex (Int × List Char))) :=
  toLex (a.1, toLex (a.2.1.data, toLex (a.2.2.1, a.2.2.2.data)))

/-- Modelled from the spec claim for `parseDueDate` (strict reading):
the string strictly matches `YYYY-MM-DD` — exactly ten characters,
dashes at positions 5 and 8, four year digits, two month digits, two day
digits — and names a valid calendar date (year at least 1, month 1..12,
day within the month). -/
def isStrictYMD (s : String) : Bool :=
  match s.data with
  | [y1, y2, y3, y4, c1, m1, m2, c2, d1, d2] =>
    decide (c1 = '-' ∧ c2 = '-' ∧
      y1.isDigit ∧ y2.isDigit ∧ y3.isDigit ∧ y4.isDigit ∧
      m1.isDigit ∧ m2.isDigit ∧ d1.isDigit ∧ d2.isDigit ∧
      1 ≤ digitsToNat [y1, y2, y3, y4] ∧
      1 ≤ digitsToNat [m1, m2] ∧ digitsToNat [m1, m2] ≤ 12 ∧
      1 ≤ digitsToNat [d1, d2] ∧
      digitsToNat [d1, d2]
        ≤ daysInMonth (digitsToNat [y1, y2, y3, y4]) (digitsToNat [m1, m2]))
  | _ => false

/-! ### Persistence lemmas -/

theorem jsonToTask_taskToJson (t : Task) : jsonToTask (taskToJson t) = some t := by
  obtain ⟨i, ti, ca, dd, p, c⟩ := t
  cases dd <;> rfl

theorem decodeTasks_encodeTasks (ts : List Task) :
    decodeTasks (encodeTasks ts) = some ts := by
  induction ts with
  | nil => rfl
  | cons t ts ih =>
    simp only [encodeTasks, decodeTasks, List.map_cons, decodeTaskList,
      jsonToTask_taskToJson] at *
    simp [ih]

theorem load_tasks_save_tasks (ts : List Task) (fs : FS) :
    load_tasks (save_tasks ts fs) = (ts, save_tasks ts fs) := by
  simp [load_tasks, save_tasks, decodeTasks_encodeTasks]

theorem pyStartsWith_empty (s : String) : pyStartsWith s "" = true := by
  simp [pyStartsWith, List.isPrefixOf]

/-! ### Claim theorems -/

/-- C3: for every collection of tasks and every starting filesystem
state, saving the collection and then loading yields a collection equal
field-for-field (as `Task` values) to the one saved. -/
theorem claim_C3_save_load_roundtrip (ts : List Task) (fs : FS) :
    (load_tasks (save_tasks ts fs)).1 = ts := by
  simp [load_tasks_save_tasks]

/-- C5: `load_tasks` returns an empty collection when the backing file is
absent; when the file exists but its contents fail to decode into valid
task records, it renames the file to the backup path (the tasks file
becomes absent, the backup holds the old content) and returns an empty
collection.  `load_tasks` is a total function, so no exception escapes
this boundary. -/
theorem claim_C5_load_recovery (fs : FS) (c : Content) :
    (fs.tasksFile = none → load_tasks fs = ([], fs)) ∧
    (fs.tasksFile = some c → decodeTasks c = none →
      (load_tasks fs).1 = [] ∧ (load_tasks fs).2 = ⟨none, some c⟩) := by
  constructor
  · intro h
    simp [load_tasks, h]
  · intro h hc
    simp [load_tasks, h, hc]

/-- Witness for C5: an absent file and a malformed file, concretely. -/
theorem claim_C5_witness :
    load_tasks ⟨none, none⟩ = ([], ⟨none, none⟩) ∧
    ((load_tasks ⟨some .malformed, none⟩).1 = [] ∧
      (load_tasks ⟨some .malformed, none⟩).2 = ⟨none, some .malformed⟩) :=
  ⟨(claim_C5_load_recovery ⟨none, none⟩ .malformed).1 rfl,
   (claim_C5_load_recovery ⟨some .malformed, none⟩ .malformed).2 rfl rfl⟩

/-- C7: from an empty store, `add_task` with title `Buy milk`, due date
`2024-01-01` and priority `2` followed by an unfiltered `list_tasks`
returns exactly the one created task, whose fields are the given title
and due date, priority 2, and `completed = false` (for any fresh id and
timestamp). -/
theorem claim_C7_add_then_list (newId now : String) (fs : FS)
    (h : (load_tasks fs).1 = []) :
    (list_tasks none (add_task newId now "Buy milk" (some "2024-01-01") 2 fs).2).1
      = [(add_task newId now "Buy milk" (some "2024-01-01") 2 fs).1] ∧
    (add_task newId now "Buy milk" (some "2024-01-01") 2 fs).1.title = "Buy milk" ∧
    (add_task newId now "Buy milk" (some "2024-01-01") 2 fs).1.due_date = some "2024-01-01" ∧
    (add_task newId now "Buy milk" (some "2024-01-01") 2 fs).1.priority = 2 ∧
    (add_task newId now "Buy milk" (some "2024-01-01") 2 fs).1.completed = false := by
  refine ⟨?_, ?_, rfl, rfl, rfl⟩
  · simp [add_task, list_tasks, h, load_tasks_save_tasks]
  · show pyStrip "Buy milk" = "Buy milk"
    decide

/-- Witness for C7: the empty filesystem, a concrete id and timestamp. -/
theorem claim_C7_witness :
    (list_tasks none
        (add_task "id-1" "2024-01-01 10:00:00" "Buy milk" (some "2024-01-01") 2
          ⟨none, none⟩).2).1
      = [(add_task "id-1" "2024-01-01 10:00:00" "Buy milk" (some "2024-01-01") 2
          ⟨none, none⟩).1] ∧
    (add_task "id-1" "2024-01-01 10:00:00" "Buy milk" (some "2024-01-01") 2
        ⟨none, none⟩).1.title = "Buy milk" ∧
    (add_task "id-1" "2024-01-01 10:00:00" "Buy milk" (some "2024-01-01") 2
        ⟨none, none⟩).1.due_date = some "2024-01-01" ∧
    (add_task "id-1" "2024-01-01 10:00:00" "Buy milk" (some "2024-01-01") 2
        ⟨none, none⟩).1.priority = 2 ∧
    (add_task "id-1" "2024-01-01 10:00:00" "Buy milk" (some "2024-01-01") 2
        ⟨none, none⟩).1.completed = false :=
  claim_C7_add_then_list "id-1" "2024-01-01 10:00:00" ⟨none, none⟩ rfl

/-- Marking the first match again changes nothing: the completed flag it
sets is already set, and ids are untouched. -/
theorem markFirst_idem (q : String) (ts ts' : List Task)
    (h : markFirst q ts = (ts', true)) : markFirst q ts' = (ts', true) := by
  induction ts generalizing ts' with
  | nil => simp [markFirst] at h
  | cons t ts ih =>
    by_cases hp : pyStartsWith t.id q
    · simp only [markFirst, hp, if_pos] at h
      obtain ⟨rfl, -⟩ := Prod.mk.injEq .. ▸ h
      simp [markFirst, hp]
    · simp only [markFirst, hp, if_neg, Bool.false_eq_true, not_false_iff] at h
      obtain ⟨rfl, h2⟩ := Prod.mk.injEq .. ▸ h
      have := ih (markFirst q ts).1 (by rw [← h2])
      simp [markFirst, hp, this]

/-- C10: completion is idempotent at the public interface: when
`complete_task` reports success, running it again with the same id
reports success and leaves the filesystem (hence the stored collection)
exactly as it was. -/
theorem claim_C10_complete_idempotent (q : String) (fs : FS)
    (h : (complete_task q fs).1 = true) :
    (complete_task q (complete_task q fs).2).1 = true ∧
    (complete_task q (complete_task q fs).2).2 = (complete_task q fs).2 := by
  cases hb : (markFirst q (load_tasks fs).1).2 with
  | false => exfalso; simp [complete_task, hb] at h
  | true =>
    have hm : markFirst q (load_tasks fs).1
        = ((markFirst q (load_tasks fs).1).1, true) := by
      rw [← hb]
    have h2 := markFirst_idem q _ _ hm
    constructor
    · simp [complete_task, hb, load_tasks_save_tasks, h2]
    · simp only [complete_task, hb, if_pos, load_tasks_save_tasks, h2]
      simp [save_tasks]

/-- Witness for C10: a one-task store, completed twice by its id. -/
theorem claim_C10_witness :
    (complete_task "a"
        (complete_task "a" (save_tasks [⟨"ab", "T", "c", none, 3, false⟩]
          ⟨none, none⟩)).2).1 = true ∧
    (complete_task "a"
        (complete_task "a" (save_tasks [⟨"ab", "T", "c", none, 3, false⟩]
          ⟨none, none⟩)).2).2
      = (complete_task "a" (save_tasks [⟨"ab", "T", "c", none, 3, false⟩]
          ⟨none, none⟩)).2 :=
  claim_C10_complete_idempotent "a"
    (save_tasks [⟨"ab", "T", "c", none, 3, false⟩] ⟨none, none⟩) (by decide)

/-- C9: the empty string is a prefix of every task id, so on a non-empty
store `delete_task ""` removes every task and returns `True` while
`complete_task ""` marks only the first task in stored order and returns
`True`; on an empty store both return `False`. -/
theorem claim_C9_empty_prefix_matches_all (fs : FS) (t : Task) (ts : List Task) :
    ((load_tasks fs).1 = t :: ts →
      (delete_task "" fs).1 = true ∧
      (load_tasks (delete_task "" fs).2).1 = [] ∧
      (complete_task "" fs).1 = true ∧
      (load_tasks (complete_task "" fs).2).1 = { t with completed := true } :: ts) ∧
    ((load_tasks fs).1 = [] →
      (delete_task "" fs).1 = false ∧ (complete_task "" fs).1 = false) := by
  constructor
  · intro h
    refine ⟨?_, ?_, ?_, ?_⟩
    · simp [delete_task, h, pyStartsWith_empty]
    · simp [delete_task, h, pyStartsWith_empty, load_tasks_save_tasks]
    · simp [complete_task, h, markFirst, pyStartsWith_empty]
    · simp [complete_task, h, markFirst, pyStartsWith_empty, load_tasks_save_tasks]
  · intro h
    constructor
    · simp [delete_task, h]
    · simp [complete_task, h, markFirst]

/-- Witness for C9: a two-task store and the empty store, concretely. -/
theorem claim_C9_witness :
    ((delete_task "" (save_tasks [⟨"ab", "T", "c", none, 3, false⟩,
        ⟨"cd", "U", "c", none, 2, false⟩] ⟨none, none⟩)).1 = true ∧
      (load_tasks (delete_task "" (save_tasks [⟨"ab", "T", "c", none, 3, false⟩,
        ⟨"cd", "U", "c", none, 2, false⟩] ⟨none, none⟩)).2).1 = [] ∧
      (complete_task "" (save_tasks [⟨"ab", "T", "c", none, 3, false⟩,
        ⟨"cd", "U", "c", none, 2, false⟩] ⟨none, none⟩)).1 = true ∧
      (load_tasks (complete_task "" (save_tasks [⟨"ab", "T", "c", none, 3, false⟩,
        ⟨"cd", "U", "c", none, 2, false⟩] ⟨none, none⟩)).2).1
        = [⟨"ab", "T", "c", none, 3, true⟩, ⟨"cd", "U", "c", none, 2, false⟩]) ∧
    ((delete_task "" ⟨none, none⟩).1 = false ∧
      (complete_task "" ⟨none, none⟩).1 = false) :=
  ⟨(claim_C9_empty_prefix_matches_all
      (save_tasks [⟨"ab", "T", "c", none, 3, false⟩,
        ⟨"cd", "U", "c", none, 2, false⟩] ⟨none, none⟩)
      ⟨"ab", "T", "c", none, 3, false⟩ [⟨"cd", "U", "c", none, 2, false⟩]).1 (by decide),
   (claim_C9_empty_prefix_matches_all ⟨none, none⟩
      ⟨"ab", "T", "c", none, 3, false⟩ []).2 rfl⟩

/-- C1 fails on the code: `add_task` stores its priority argument without
any clamping, so adding with priority 0 returns and stores a task of
priority 0, outside `[1, 5]` (and priority 99 stays 99). -/
theorem claim_C1_counterexample :
    (add_task "a" "c" "T" none 0 ⟨none, none⟩).1.priority = 0 ∧
    (load_tasks (add_task "a" "c" "T" none 0 ⟨none, none⟩).2).1
      = [⟨"a", "T", "c", none, 0, false⟩] ∧
    (add_task "a" "c" "T" none 99 ⟨none, none⟩).1.priority = 99 ∧
    ¬(1 ≤ (add_task "a" "c" "T" none 0 ⟨none, none⟩).1.priority ∧
      (add_task "a" "c" "T" none 0 ⟨none, none⟩).1.priority ≤ 5) := by
  refine ⟨rfl, by decide, rfl, by decide⟩

/-- C1 amended: `add_task` stores the priority argument verbatim, both in
the returned task and in the stored collection; clamping into `[1, 5]`
happens only at the menu layer, whose `input_int` (called with default 3)
always yields a value in `[1, 5]`. -/
theorem claim_C1_amended (newId now title : String) (due : Option String)
    (pri : Int) (fs : FS) (raw : String) :
    (add_task newId now title due pri fs).1.priority = pri ∧
    (load_tasks (add_task newId now title due pri fs).2).1
      = (load_tasks fs).1 ++ [(add_task newId now title due pri fs).1] ∧
    1 ≤ input_int raw 3 ∧ input_int raw 3 ≤ 5 := by
  refine ⟨rfl, ?_, ?_, ?_⟩
  · simp [add_task, load_tasks_save_tasks]
  all_goals
    unfold input_int
    dsimp only
    split
    · omega
    · cases pyParseInt (pyStrip raw) <;> dsimp only <;> omega

/-- When no task before `t` matches and `t` does, the completion loop
marks exactly `t` and stops. -/
theorem markFirst_append_of_first (q : String) (ts₁ : List Task) (t : Task)
    (rest : List Task) (h1 : ∀ u ∈ ts₁, pyStartsWith u.id q = false)
    (hp : pyStartsWith t.id q = true) :
    markFirst q (ts₁ ++ t :: rest)
      = (ts₁ ++ { t with completed := true } :: rest, true) := by
  induction ts₁ with
  | nil => simp [markFirst, hp]
  | cons u us ih =>
    have hu : pyStartsWith u.id q = false := h1 u (by simp)
    have ih' := ih (fun v hv => h1 v (by simp [hv]))
    simp [markFirst, hu, ih']

/-- C2: when the store's tasks matching the shared id start `q` begin
with `t1` and also contain a later `t2`, `delete_task q` succeeds and
removes every matching task (in particular both `t1` and `t2`), while
`complete_task q` succeeds and marks only `t1`, the matching task first
in stored order, keeping `t2` (and all others) unchanged in every
field. -/
theorem claim_C2_shared_prefix_delete_vs_complete (fs : FS) (q : String)
    (ts₁ ts₂ ts₃ : List Task) (t1 t2 : Task)
    (h : (load_tasks fs).1 = ts₁ ++ t1 :: ts₂ ++ t2 :: ts₃)
    (h1 : ∀ u ∈ ts₁, pyStartsWith u.id q = false)
    (hp1 : pyStartsWith t1.id q = true) (hp2 : pyStartsWith t2.id q = true) :
    (delete_task q fs).1 = true ∧
    (load_tasks (delete_task q fs).2).1
      = (ts₁ ++ ts₂ ++ ts₃).filter (fun u => ! pyStartsWith u.id q) ∧
    (complete_task q fs).1 = true ∧
    (load_tasks (complete_task q fs).2).1
      = ts₁ ++ { t1 with completed := true } :: ts₂ ++ t2 :: ts₃ := by
  have hfilter :
      (ts₁ ++ t1 :: ts₂ ++ t2 :: ts₃).filter (fun u => ! pyStartsWith u.id q)
        = ts₁.filter (fun u => ! pyStartsWith u.id q)
            ++ (ts₂.filter (fun u => ! pyStartsWith u.id q)
              ++ ts₃.filter (fun u => ! pyStartsWith u.id q)) := by
    simp [List.filter_append, List.filter_cons, hp1, hp2]
  have hshrunk :
      ((ts₁ ++ t1 :: ts₂ ++ t2 :: ts₃).filter
          (fun u => ! pyStartsWith u.id q)).length
        ≠ (ts₁ ++ t1 :: ts₂ ++ t2 :: ts₃).length := by
    have e1 := List.length_filter_le (fun u => ! pyStartsWith u.id q) ts₁
    have e2 := List.length_filter_le (fun u => ! pyStartsWith u.id q) ts₂
    have e3 := List.length_filter_le (fun u => ! pyStartsWith u.id q) ts₃
    rw [hfilter]
    simp only [List.length_append, List.length_cons]
    omega
  have hmark := markFirst_append_of_first q ts₁ t1 (ts₂ ++ t2 :: ts₃) h1 hp1
  refine ⟨?_, ?_, ?_, ?_⟩
  · simp only [delete_task, h]
    rw [if_pos hshrunk]
  · simp only [delete_task, h]
    rw [if_pos hshrunk]
    simp [load_tasks_save_tasks, List.filter_append, List.filter_cons, hp1, hp2]
  · have hshape : ts₁ ++ t1 :: ts₂ ++ t2 :: ts₃ = ts₁ ++ t1 :: (ts₂ ++ t2 :: ts₃) := by
      simp
    simp only [complete_task, h, hshape]
    rw [hmark]
    rfl
  · have hshape : ts₁ ++ t1 :: ts₂ ++ t2 :: ts₃ = ts₁ ++ t1 :: (ts₂ ++ t2 :: ts₃) := by
      simp
    simp only [complete_task, h, hshape]
    rw [hmark]
    simp [load_tasks_save_tasks]

/-- Witness for C2: three stored tasks, two of them sharing the id
start `ab`, behind one non-matching task. -/
theorem claim_C2_witness :
    (delete_task "ab" (save_tasks [⟨"zz", "S", "c", none, 3, false⟩,
        ⟨"ab1", "T", "c", none, 3, false⟩, ⟨"ab2", "U", "c", none, 2, false⟩]
        ⟨none, none⟩)).1 = true ∧
    (load_tasks (delete_task "ab" (save_tasks [⟨"zz", "S", "c", none, 3, false⟩,
        ⟨"ab1", "T", "c", none, 3, false⟩, ⟨"ab2", "U", "c", none, 2, false⟩]
        ⟨none, none⟩)).2).1
      = ([(⟨"zz", "S", "c", none, 3, false⟩ : Task)] ++ [] ++ []).filter
          (fun u => ! pyStartsWith u.id "ab") ∧
    (complete_task "ab" (save_tasks [⟨"zz", "S", "c", none, 3, false⟩,
        ⟨"ab1", "T", "c", none, 3, false⟩, ⟨"ab2", "U", "c", none, 2, false⟩]
        ⟨none, none⟩)).1 = true ∧
    (load_tasks (complete_task "ab" (save_tasks [⟨"zz", "S", "c", none, 3, false⟩,
        ⟨"ab1", "T", "c", none, 3, false⟩, ⟨"ab2", "U", "c", none, 2, false⟩]
        ⟨none, none⟩)).2).1
      = [⟨"zz", "S", "c", none, 3, false⟩]
          ++ { (⟨"ab1", "T", "c", none, 3, false⟩ : Task) with completed := true }
            :: [] ++ (⟨"ab2", "U", "c", none, 2, false⟩ : Task) :: [] :=
  claim_C2_shared_prefix_delete_vs_complete
    (save_tasks [⟨"zz", "S", "c", none, 3, false⟩, ⟨"ab1", "T", "c", none, 3, false⟩,
      ⟨"ab2", "U", "c", none, 2, false⟩] ⟨none, none⟩)
    "ab" [⟨"zz", "S", "c", none, 3, false⟩] [] []
    ⟨"ab1", "T", "c", none, 3, false⟩ ⟨"ab2", "U", "c", none, 2, false⟩
    (by decide) (by decide) (by decide) (by decide)

/-- C6 fails on the code: with stored tasks of ids `ab` then `a`, the
string `a` is the full id of the second task, yet `complete_task "a"`
marks the first task (whose id merely extends `a`) and leaves the task
with id `a` untouched. -/
theorem claim_C6_counterexample :
    (complete_task "a" (save_tasks [⟨"ab", "U", "c", none, 3, false⟩,
        ⟨"a", "T", "c", none, 3, false⟩] ⟨none, none⟩)).1 = true ∧
    (load_tasks (complete_task "a" (save_tasks [⟨"ab", "U", "c", none, 3, false⟩,
        ⟨"a", "T", "c", none, 3, false⟩] ⟨none, none⟩)).2).1
      = [⟨"ab", "U", "c", none, 3, true⟩, ⟨"a", "T", "c", none, 3, false⟩] := by
  refine ⟨rfl, by decide⟩

/-- C6 amended: if `q` is a prefix of the id of stored task `t` (in
particular its full id) and no other stored task's id starts with `q`,
then `complete_task q` succeeds, sets `t.completed` to true, and leaves
every other task unchanged in every field. -/
theorem claim_C6_amended_unique_match (fs : FS) (q : String)
    (ts₁ ts₂ : List Task) (t : Task)
    (h : (load_tasks fs).1 = ts₁ ++ t :: ts₂)
    (hp : pyStartsWith t.id q = true)
    (h1 : ∀ u ∈ ts₁, pyStartsWith u.id q = false)
    (_h2 : ∀ u ∈ ts₂, pyStartsWith u.id q = false) :
    (complete_task q fs).1 = true ∧
    (load_tasks (complete_task q fs).2).1
      = ts₁ ++ { t with completed := true } :: ts₂ := by
  have hmark := markFirst_append_of_first q ts₁ t ts₂ h1 hp
  constructor
  · simp [complete_task, h, hmark]
  · simp [complete_task, h, hmark, load_tasks_save_tasks]

/-- Witness for C6 amended: completing a task by a unique prefix of its
id, with neighbours on both sides. -/
theorem claim_C6_witness :
    (complete_task "b" (save_tasks [⟨"ax", "S", "c", none, 3, false⟩,
        ⟨"bx", "T", "c", none, 3, false⟩, ⟨"cx", "U", "c", none, 2, false⟩]
        ⟨none, none⟩)).1 = true ∧
    (load_tasks (complete_task "b" (save_tasks [⟨"ax", "S", "c", none, 3, false⟩,
        ⟨"bx", "T", "c", none, 3, false⟩, ⟨"cx", "U", "c", none, 2, false⟩]
        ⟨none, none⟩)).2).1
      = [⟨"ax", "S", "c", none, 3, false⟩]
          ++ { (⟨"bx", "T", "c", none, 3, false⟩ : Task) with completed := true }
            :: [⟨"cx", "U", "c", none, 2, false⟩] :=
  claim_C6_amended_unique_match
    (save_tasks [⟨"ax", "S", "c", none, 3, false⟩, ⟨"bx", "T", "c", none, 3, false⟩,
      ⟨"cx", "U", "c", none, 2, false⟩] ⟨none, none⟩)
    "b" [⟨"ax", "S", "c", none, 3, false⟩] [⟨"cx", "U", "c", none, 2, false⟩]
    ⟨"bx", "T", "c", none, 3, false⟩
    (by decide) (by decide) (by decide) (by decide)

theorem pyKeyLE_iff_keyEmbed (a b : Bool × String × Int × String) :
    pyKeyLE a b ↔ keyEmbed a ≤ keyEmbed b := by
  simp only [pyKeyLE, keyEmbed, Prod.Lex.le_iff, String.ext_iff]

theorem keyLe_trans (a b c : Task) (hab : keyLe a b = true)
    (hbc : keyLe b c = true) : keyLe a c = true := by
  simp only [keyLe, decide_eq_true_eq, pyKeyLE_iff_keyEmbed] at *
  exact le_trans hab hbc

theorem keyLe_total (a b : Task) : (keyLe a b || keyLe b a) = true := by
  simp only [keyLe, Bool.or_eq_true, decide_eq_true_eq, pyKeyLE_iff_keyEmbed]
  exact le_total _ _

/-- C8: the display ordering is a stable sort by the composite key:
`sortForDisplay` permutes the stored list, its output is sorted by the
tuple comparison on `(completed, due-or-sentinel, priority, created_at)`
(booleans with incomplete first, strings by code point, priority with 1
first), and it coincides with sorting the index-tagged list by the key
with the original index as the tiebreaker — the characterization of
stability. -/
theorem claim_C8_sortForDisplay_stable_sorted (ts : List Task) :
    (sortForDisplay ts).Perm ts ∧
    (sortForDisplay ts).Pairwise (fun a b => keyLe a b = true) ∧
    sortForDisplay ts = (ts.enum.mergeSort (List.enumLE keyLe)).map (fun x => x.2) :=
  ⟨List.mergeSort_perm ts keyLe,
   List.sorted_mergeSort (fun a b c => keyLe_trans a b c) keyLe_total ts,
   (List.mergeSort_enum).symm⟩

/-! ### Date-parsing lemmas -/

theorem digitVal_le_nine (c : Char) (h : c.isDigit = true) : digitVal c ≤ 9 := by
  unfold Char.isDigit at h
  simp only [Bool.and_eq_true, decide_eq_true_eq, ge_iff_le] at h
  have g2 : c.val.toNat ≤ 57 := UInt32.toNat_le_of_le (by norm_num [UInt32.size]) h.2
  have g3 : c.toNat = c.val.toNat := rfl
  unfold digitVal
  omega

theorem daysInMonth_le_31 (y m : Nat) : daysInMonth y m ≤ 31 := by
  unfold daysInMonth
  split_ifs <;> omega

theorem digitsToNat_four_le (y1 y2 y3 y4 : Char) (h1 : y1.isDigit = true)
    (h2 : y2.isDigit = true) (h3 : y3.isDigit = true) (h4 : y4.isDigit = true) :
    digitsToNat [y1, y2, y3, y4] ≤ 9999 := by
  have b1 := digitVal_le_nine y1 h1
  have b2 := digitVal_le_nine y2 h2
  have b3 := digitVal_le_nine y3 h3
  have b4 := digitVal_le_nine y4 h4
  simp only [digitsToNat, List.foldl]
  omega

/-- A strictly formatted, calendar-valid character sequence is accepted
by the `%Y-%m-%d` parse, producing the three numeric fields. -/
theorem strptimeYMD_of_strict (y1 y2 y3 y4 m1 m2 d1 d2 : Char)
    (hy1 : y1.isDigit = true) (hy2 : y2.isDigit = true)
    (hy3 : y3.isDigit = true) (hy4 : y4.isDigit = true)
    (hm1 : m1.isDigit = true) (hm2 : m2.isDigit = true)
    (hd1 : d1.isDigit = true) (hd2 : d2.isDigit = true)
    (hy : 1 ≤ digitsToNat [y1, y2, y3, y4])
    (hm : 1 ≤ digitsToNat [m1, m2]) (hm' : digitsToNat [m1, m2] ≤ 12)
    (hd : 1 ≤ digitsToNat [d1, d2])
    (hd' : digitsToNat [d1, d2]
      ≤ daysInMonth (digitsToNat [y1, y2, y3, y4]) (digitsToNat [m1, m2])) :
    strptimeYMD [y1, y2, y3, y4, '-', m1, m2, '-', d1, d2]
      = some (digitsToNat [y1, y2, y3, y4], digitsToNat [m1, m2],
          digitsToNat [d1, d2]) := by
  have h31 : digitsToNat [d1, d2] ≤ 31 := le_trans hd' (daysInMonth_le_31 _ _)
  simp only [strptimeYMD, takeDigits2, hy1, hy2, hy3, hy4, hm1, hm2, hd1, hd2,
    if_true]
  simp [hd1, hd2, hy, hm, hm', hd, hd', h31]

/-- Any successful `%Y-%m-%d` parse yields fields inside the calendar
ranges the `datetime` constructor enforces. -/
theorem strptimeYMD_bounds (cs : List Char) (y m d : Nat)
    (h : strptimeYMD cs = some (y, m, d)) :
    1 ≤ y ∧ y ≤ 9999 ∧ 1 ≤ m ∧ m ≤ 12 ∧ 1 ≤ d ∧ d ≤ daysInMonth y m := by
  unfold strptimeYMD at h
  split at h
  · rename_i y1 y2 y3 y4 c1 rest
    split at h
    · rename_i hdig
      split at h
      · split at h
        · split at h
          · rename_i hmd
            split at h
            · rename_i hyd
              rw [Option.some_inj] at h
              obtain ⟨rfl, rfl, rfl⟩ := Prod.mk.injEq .. ▸ h
              have h9999 := digitsToNat_four_le y1 y2 y3 y4
                hdig.2.1 hdig.2.2.1 hdig.2.2.2.1 hdig.2.2.2.2
              exact ⟨hyd.1, h9999, hmd.1, hmd.2.1, hmd.2.2.1, hyd.2⟩
            · exact absurd h (by simp)
          · exact absurd h (by simp)
        · exact absurd h (by simp)
      · exact absurd h (by simp)
    · exact absurd h (by simp)
  · exact absurd h (by simp)

/-- Unfolding of a true `isStrictYMD`: the ten characters and all the
facts the strict format provides. -/
theorem isStrictYMD_spec (u : String) (h : isStrictYMD u = true) :
    ∃ y1 y2 y3 y4 m1 m2 d1 d2 : Char,
      u.data = [y1, y2, y3, y4, '-', m1, m2, '-', d1, d2] ∧
      y1.isDigit = true ∧ y2.isDigit = true ∧ y3.isDigit = true ∧
      y4.isDigit = true ∧ m1.isDigit = true ∧ m2.isDigit = true ∧
      d1.isDigit = true ∧ d2.isDigit = true ∧
      1 ≤ digitsToNat [y1, y2, y3, y4] ∧
      1 ≤ digitsToNat [m1, m2] ∧ digitsToNat [m1, m2] ≤ 12 ∧
      1 ≤ digitsToNat [d1, d2] ∧
      digitsToNat [d1, d2]
        ≤ daysInMonth (digitsToNat [y1, y2, y3, y4]) (digitsToNat [m1, m2]) := by
  unfold isStrictYMD at h
  split at h
  · rename_i y1 y2 y3 y4 c1 m1 m2 c2 d1 d2 heq
    rw [decide_eq_true_eq] at h
    obtain ⟨hc1, hc2, h3⟩ := h
    subst hc1
    subst hc2
    exact ⟨y1, y2, y3, y4, m1, m2, d1, d2, heq, h3.1, h3.2.1, h3.2.2.1,
      h3.2.2.2.1, h3.2.2.2.2.1, h3.2.2.2.2.2.1, h3.2.2.2.2.2.2.1,
      h3.2.2.2.2.2.2.2.1, h3.2.2.2.2.2.2.2.2.1, h3.2.2.2.2.2.2.2.2.2.1,
      h3.2.2.2.2.2.2.2.2.2.2.1, h3.2.2.2.2.2.2.2.2.2.2.2.1,
      h3.2.2.2.2.2.2.2.2.2.2.2.2⟩
  · exact absurd h (by simp)

/-- C4 fails on the code: `2024-1-1` is nonempty after trimming and does
not strictly match `YYYY-MM-DD`, yet `parse_due_date` accepts it —
Python `strptime` lets `%m` and `%d` match a single digit — returning
`2024-01-01` instead of absent. -/
theorem claim_C4_counterexample :
    pyStrip "2024-1-1" = "2024-1-1" ∧
    isStrictYMD "2024-1-1" = false ∧
    parse_due_date "2024-1-1" = some "2024-01-01" :=
  ⟨by decide, by decide, by decide⟩

/-- C4 amended: `parse_due_date` trims its input and returns absent on
an empty remainder; any accepted input parses under the `%Y-%m-%d`
pattern — four year digits, one or two month digits, one or two day
digits — as a valid calendar date (year 1..9999, month 1..12, day within
the month) and is returned re-formatted with zero-padded month and day;
every strictly formatted valid `YYYY-MM-DD` date is accepted; everything
else, in particular the invalid calendar date `2024-13-40`, is absent.
(`2024-1-1`, accepted as `2024-01-01`, shows the pattern is wider than
strict `YYYY-MM-DD`.) -/
theorem claim_C4_amended (s : String) :
    (pyStrip s = "" → parse_due_date s = none) ∧
    (parse_due_date s = none ∨
      ∃ y m d, 1 ≤ y ∧ y ≤ 9999 ∧ 1 ≤ m ∧ m ≤ 12 ∧ 1 ≤ d ∧
        d ≤ daysInMonth y m ∧
        strptimeYMD (pyStrip s).data = some (y, m, d) ∧
        parse_due_date s = some (fmtYMD y m d)) ∧
    (isStrictYMD (pyStrip s) = true → parse_due_date s ≠ none) ∧
    parse_due_date "2024-13-40" = none ∧
    parse_due_date "2024-1-1" = some "2024-01-01" := by
  refine ⟨?_, ?_, ?_, by decide, by decide⟩
  · intro h
    simp [parse_due_date, h]
  · by_cases he : pyStrip s = ""
    · left
      simp [parse_due_date, he]
    · cases hst : strptimeYMD (pyStrip s).data with
      | none =>
        left
        simp [parse_due_date, he, hst]
      | some ymd =>
        right
        obtain ⟨y, m, d⟩ := ymd
        obtain ⟨b1, b2, b3, b4, b5, b6⟩ := strptimeYMD_bounds _ y m d hst
        exact ⟨y, m, d, b1, b2, b3, b4, b5, b6, rfl,
          by simp [parse_due_date, he, hst]⟩
  · intro hs
    obtain ⟨y1, y2, y3, y4, m1, m2, d1, d2, heq, hy1, hy2, hy3, hy4,
      hm1, hm2, hd1, hd2, hy, hm, hm', hd, hd'⟩ := isStrictYMD_spec _ hs
    have hne : pyStrip s ≠ "" := by
      intro h0
      rw [h0] at heq
      simp at heq
    have hacc := strptimeYMD_of_strict y1 y2 y3 y4 m1 m2 d1 d2
      hy1 hy2 hy3 hy4 hm1 hm2 hd1 hd2 hy hm hm' hd hd'
    simp [parse_due_date, hne, heq, hacc]

/-- Witness for C4 amended: a strict date is accepted, a blank input is
absent. -/
theorem claim_C4_witness :
    parse_due_date "2024-05-06" ≠ none ∧ parse_due_date " " = none :=
  ⟨(claim_C4_amended "2024-05-06").2.2.1 (by decide),
   (claim_C4_amended " ").1 (by decide)⟩

end TaskTracker
